import Mathlib

/-!
Verification of the `SelectedTag` bulk-tagger view class
(`openlibrary/plugins/openlibrary/js/bulk-tagger/BulkTagger/SelectedTag.js`)
and of the component-discovery logic in `openlibrary/components/vite.config.mjs`.

The JavaScript is shallowly embedded as follows.

* A JS string is a Lean `String`; `toLowerCase`, `startsWith`, `includes`
  and `replace(pat, '')` are modelled character-wise on `String.data`
  (`Char.toLower` models the case folding on the character range the
  repository's class uses).
* A DOM `DOMTokenList` (`classList`) is a duplicate-free `List String`
  manipulated by `classListAdd` / `classListRemove` / `classListToggle`,
  which follow the DOM semantics: `add` appends the token only when absent,
  `remove` deletes every occurrence, `toggle` flips presence.
* The rendered root element of one `SelectedTag` is an `Elem`: the root
  `div`'s class list plus the class lists / text of the three child spans
  that `renderAndAttach` writes through `innerHTML`.  (The HTML parsing of
  the markup template is modelled structurally: the template always consists
  of exactly those three spans, with the interpolated fragments placed in
  the corresponding fields.)
* A `World` is one `SelectedTag` instance together with the children of the
  well-known `.selected-tag-subjects` container, the only part of the
  document the class touches.  The instance's node content is stored in the
  instance (`selectedTag` field, `undefined` = `none` before rendering);
  the container records only the order of children (`Child.ours` is this
  instance's node, `Child.other i` any unrelated child), which avoids an
  explicit heap while keeping attachment and node content in sync.
* A method that dereferences `this.selectedTag` while it is `undefined`
  throws a `TypeError`; methods therefore return `World × Option JsError`,
  where the returned `World` is the state at the moment of the throw (JS
  mutations performed before the throw are kept, as in the source).
-/

namespace BulkTagger

/-! ## JS string primitives -/

/-- Model of `String.prototype.toLowerCase`, character-wise. -/
def jsToLower (s : String) : String :=
  ⟨s.data.map Char.toLower⟩

/-- Model of `s.startsWith(p)`: `p` is a prefix of `s`. -/
def jsStartsWith (s p : String) : Bool :=
  p.data.isPrefixOf s.data

/-- Helper for `jsIncludes`: does `pat` occur as a contiguous run? -/
def containsSub (pat : List Char) : List Char → Bool
  | [] => pat.isEmpty
  | c :: rest => pat.isPrefixOf (c :: rest) || containsSub pat rest

/-- Model of `s.includes(pat)`. -/
def jsIncludes (s pat : String) : Bool :=
  containsSub pat.data s.data

/-- Helper for `jsReplaceFirst`: delete the first occurrence of `pat`. -/
def removeFirstSub (pat : List Char) : List Char → List Char
  | [] => []
  | c :: rest =>
      if pat.isPrefixOf (c :: rest) then (c :: rest).drop pat.length
      else c :: removeFirstSub pat rest

/-- Model of `s.replace(pat, '')` for a string pattern: JS replaces only the
first occurrence; when `pat` does not occur, `s` is returned unchanged. -/
def jsReplaceFirst (s pat : String) : String :=
  ⟨removeFirstSub pat.data s.data⟩

/-! ## DOMTokenList (`classList`) -/

/-- `classList.add(tok)`: appends the token only when it is not present. -/
def classListAdd (cls : List String) (tok : String) : List String :=
  if cls.contains tok then cls else cls ++ [tok]

/-- `classList.remove(tok)`: removes every occurrence of the token. -/
def classListRemove (cls : List String) (tok : String) : List String :=
  cls.filter (fun c => c != tok)

/-- `classList.toggle(tok)`: removes the token when present, adds it when
absent. -/
def classListToggle (cls : List String) (tok : String) : List String :=
  if cls.contains tok then classListRemove cls tok else classListAdd cls tok

/-! ## The `SelectedTag` class and its world -/

/-- The `classTypeSuffixes` map at the top of `SelectedTag.js`. -/
def classTypeSuffixes : List (String × String) :=
  [("subjects", "--subject"),
   ("subject_people", "--person"),
   ("subject_places", "--place"),
   ("subject_times", "--time")]

/-- JS property access `classTypeSuffixes[t]`: `none` models `undefined`. -/
def suffixLookup (t : String) : Option String :=
  classTypeSuffixes.lookup t

/-- Interpolation of a possibly-`undefined` value into a template literal:
`undefined` becomes the text `"undefined"`. -/
def interpOpt (o : Option String) : String :=
  o.getD "undefined"

/-- The root element built by `renderAndAttach`: the root `div`'s class list
and the class lists / text content of its three child spans. -/
structure Elem where
  classes : List String
  statusClasses : List String
  typeClasses : List String
  nameText : String
deriving DecidableEq

/-- The fields of a `SelectedTag` instance, as initialised by the
constructor.  `selectedTag = none` models the field being `undefined`. -/
structure SelectedTag where
  tagType : String
  tagName : String
  allWorksTagged : Bool
  isVisible : Bool
  LOWERCASE_TAG_NAME : String
  selectedTag : Option Elem
deriving DecidableEq

/-- `new SelectedTag(tagType, tagName, allWorksTagged)`. -/
def SelectedTag.construct (tagType tagName : String) (allWorksTagged : Bool) :
    SelectedTag :=
  { tagType := tagType
    tagName := tagName
    allWorksTagged := allWorksTagged
    isVisible := true
    LOWERCASE_TAG_NAME := jsToLower tagName
    selectedTag := none }

/-- A child of the `.selected-tag-subjects` container: either this
instance's node or an unrelated node. -/
inductive Child where
  | ours : Child
  | other : Nat → Child
deriving DecidableEq

/-- One `SelectedTag` instance plus the container it attaches into. -/
structure World where
  tag : SelectedTag
  containerChildren : List Child
deriving DecidableEq

/-- A freshly constructed instance next to a container that holds only
unrelated children. -/
def initWorld (tagType tagName : String) (allWorksTagged : Bool)
    (others : List Nat) : World :=
  { tag := SelectedTag.construct tagType tagName allWorksTagged
    containerChildren := others.map Child.other }

/-- A JS exception; the only one these methods can raise is a `TypeError`
from dereferencing the `undefined` field `this.selectedTag`. -/
inductive JsError where
  | typeError : JsError
deriving DecidableEq

/-- The status-marker class interpolated by `renderAndAttach` and toggled by
`updateAllWorksTagged`. -/
def statusModifier (allWorksTagged : Bool) : String :=
  "selected-tag__status--" ++ (if allWorksTagged then "all-tagged" else "some-tagged")

/-- `renderAndAttach()`: builds the root `div` (class `selected-tag`), sets
its `innerHTML` to the three spans of the markup template, prepends it to
the `.selected-tag-subjects` container, and stores it in
`this.selectedTag`.  The type span's second class interpolates
`classTypeSuffixes[this.tagType]`, which is the text `"undefined"` for an
unrecognised `tagType`; the name span's text is `this.tagName`. -/
def World.renderAndAttach (w : World) : World :=
  let e : Elem :=
    { classes := classListAdd [] "selected-tag"
      statusClasses := ["selected-tag__status", statusModifier w.tag.allWorksTagged]
      typeClasses := ["selected-tag__type",
                      "selected-tag__type" ++ interpOpt (suffixLookup w.tag.tagType)]
      nameText := w.tag.tagName }
  { tag := { w.tag with selectedTag := some e }
    containerChildren := Child.ours :: w.containerChildren }

/-- `remove()`: `this.selectedTag.remove()`.  Throws when the field is
`undefined`; otherwise detaches the node from its parent (a no-op when it
is already detached).  The field itself is left untouched. -/
def World.remove (w : World) : World × Option JsError :=
  match w.tag.selectedTag with
  | none => (w, some JsError.typeError)
  | some _ =>
      ({ w with containerChildren := w.containerChildren.erase Child.ours }, none)

/-- `updateAllWorksTagged(b)`: assigns `this.allWorksTagged = b` first, then
dereferences `this.selectedTag` to reach the status span — so on an
unrendered instance the field is mutated and only then a `TypeError` is
thrown.  On a rendered instance the method removes the opposite status
modifier and adds the matching one. -/
def World.updateAllWorksTagged (w : World) (b : Bool) : World × Option JsError :=
  let tag1 := { w.tag with allWorksTagged := b }
  match tag1.selectedTag with
  | none => ({ w with tag := tag1 }, some JsError.typeError)
  | some e =>
      let sc :=
        if b then
          classListAdd (classListRemove e.statusClasses (statusModifier false))
            (statusModifier true)
        else
          classListAdd (classListRemove e.statusClasses (statusModifier true))
            (statusModifier false)
      ({ w with tag := { tag1 with selectedTag := some { e with statusClasses := sc } } },
       none)

/-- `hide()`: `this.selectedTag.classList.add('hidden')` — which throws
before `this.isVisible = false` runs when the instance is unrendered — then
sets `isVisible` to `false`. -/
def World.hide (w : World) : World × Option JsError :=
  match w.tag.selectedTag with
  | none => (w, some JsError.typeError)
  | some e =>
      ({ w with tag := { w.tag with
          selectedTag := some { e with classes := classListAdd e.classes "hidden" }
          isVisible := false } },
       none)

/-- `show()` (named `showTag` here because `show` is a Lean keyword):
removes the `hidden` class, then sets `isVisible` to `true`; throws before
any mutation when the instance is unrendered. -/
def World.showTag (w : World) : World × Option JsError :=
  match w.tag.selectedTag with
  | none => (w, some JsError.typeError)
  | some e =>
      ({ w with tag := { w.tag with
          selectedTag := some { e with classes := classListRemove e.classes "hidden" }
          isVisible := true } },
       none)

/-- `toggleVisibility()`: toggles the `hidden` class and negates
`isVisible`; throws before any mutation when the instance is unrendered. -/
def World.toggleVisibility (w : World) : World × Option JsError :=
  match w.tag.selectedTag with
  | none => (w, some JsError.typeError)
  | some e =>
      ({ w with tag := { w.tag with
          selectedTag := some { e with classes := classListToggle e.classes "hidden" }
          isVisible := !w.tag.isVisible } },
       none)

/-- `tagNameStartsWith(searchString)`:
`this.LOWERCASE_TAG_NAME.startsWith(searchString.toLowerCase())`.
A pure function of the instance: it returns a boolean and no state. -/
def SelectedTag.tagNameStartsWith (t : SelectedTag) (searchString : String) : Bool :=
  jsStartsWith t.LOWERCASE_TAG_NAME (jsToLower searchString)

/-! ## Operation traces -/

/-- The methods of the class, as trace labels (`unhide` labels `show`). -/
inductive Op where
  | render : Op
  | removeIt : Op
  | update : Bool → Op
  | hide : Op
  | unhide : Op
  | toggle : Op
deriving DecidableEq

/-- Run one method, keeping the state reached even when the method throws
(a JS exception aborts the method but keeps mutations already made). -/
def World.runOp (w : World) : Op → World
  | Op.render => w.renderAndAttach
  | Op.removeIt => (w.remove).1
  | Op.update b => (w.updateAllWorksTagged b).1
  | Op.hide => (w.hide).1
  | Op.unhide => (w.showTag).1
  | Op.toggle => (w.toggleVisibility).1

/-- Run a sequence of method calls, first call first. -/
def World.run (w : World) (ops : List Op) : World :=
  ops.foldl World.runOp w

/-- Run a sequence of `updateAllWorksTagged` calls with the given
arguments, first call first. -/
def World.applyUpdates (w : World) (bs : List Bool) : World :=
  bs.foldl (fun w b => (w.updateAllWorksTagged b).1) w

/-- The boolean argument of the last call in the sequence, or the start
value when the sequence is empty. -/
def lastCallArg (b : Bool) (bs : List Bool) : Bool :=
  bs.foldl (fun _ v => v) b

/-- Exactly one of the two mutually exclusive status-marker classes is in
the class list. -/
def exactlyOneStatus (cls : List String) : Prop :=
  (statusModifier true ∈ cls ∧ statusModifier false ∉ cls) ∨
  (statusModifier false ∈ cls ∧ statusModifier true ∉ cls)

/-! ## `vite.config.mjs` -/

/-- The `BUILD_DIR` constant of `vite.config.mjs`. -/
def BUILD_DIR : String := "./static/build"

/-- Node's `path.join` for the shapes used here: concatenation with `/`,
normalising away a leading `./` segment. -/
def joinPath (a b : String) : String :=
  (if jsStartsWith a "./" then ⟨a.data.drop 2⟩ else a) ++ "/" ++ b

/-- `getComponentNames()`, applied to a directory listing: keeps the file
names that *contain* `.vue` and deletes the *first* occurrence of `.vue`
from each. -/
def getComponentNames (files : List String) : List String :=
  (files.filter (fun name => jsIncludes name ".vue")).map
    (fun name => jsReplaceFirst name ".vue")

/-- Modelled from the spec: the documented selection rule — the JSDoc of
`getComponentNames` and the spec both describe scanning for files *with a
`.vue` extension* and returning the names *without the extension* — i.e. a
file is selected exactly when its name ends with `.vue`, and the component
name is the file name with that suffix removed. -/
def getComponentNamesSpec (files : List String) : List String :=
  (files.filter (fun name => ".vue".data.isSuffixOf name.data)).map
    (fun name => ⟨name.data.take (name.data.length - 4)⟩)

/-- The path `join(BUILD_DIR, 'vue-tmp-<name>.js')` that
`generateViteEntryFile` writes and that the `input` map feeds to rollup. -/
def entryFilePath (componentName : String) : String :=
  joinPath BUILD_DIR ("vue-tmp-" ++ componentName ++ ".js")

/-- The generated entry files, one per discovered component name. -/
def generatedEntryFiles (files : List String) : List String :=
  (getComponentNames files).map entryFilePath

/-- The `input` object of `rollupOptions`: each discovered component name
mapped to its generated entry file. -/
def rollupInput (files : List String) : List (String × String) :=
  (getComponentNames files).map (fun name => (name, entryFilePath name))

/-- The `output` object of `rollupOptions`. -/
structure OutputConfig where
  entryFileNames : String
  format : String
deriving DecidableEq

/-- The literal `output` configuration in `vite.config.mjs`. -/
def rollupOutput : OutputConfig :=
  { entryFileNames := "ol-[name].js", format := "es" }

/-! ## Lemmas about the classList model -/

theorem contains_eq_decide_mem (cls : List String) (tok : String) :
    cls.contains tok = decide (tok ∈ cls) := by
  simp [List.contains]

theorem mem_classListAdd_iff (cls : List String) (tok c : String) :
    c ∈ classListAdd cls tok ↔ c ∈ cls ∨ c = tok := by
  unfold classListAdd
  rw [contains_eq_decide_mem]
  split
  · next h => simp only [decide_eq_true_eq] at h
              constructor
              · exact fun hc => Or.inl hc
              · rintro (hc | rfl)
                · exact hc
                · exact h
  · simp

theorem mem_classListRemove_iff (cls : List String) (tok c : String) :
    c ∈ classListRemove cls tok ↔ c ∈ cls ∧ c ≠ tok := by
  simp [classListRemove]

theorem contains_classListAdd_self (cls : List String) (tok : String) :
    (classListAdd cls tok).contains tok = true := by
  rw [contains_eq_decide_mem, decide_eq_true_eq, mem_classListAdd_iff]
  exact Or.inr rfl

theorem classListAdd_of_contains (cls : List String) (tok : String)
    (h : cls.contains tok = true) : classListAdd cls tok = cls := by
  unfold classListAdd
  rw [if_pos h]

theorem classListAdd_idem (cls : List String) (tok : String) :
    classListAdd (classListAdd cls tok) tok = classListAdd cls tok :=
  classListAdd_of_contains _ _ (contains_classListAdd_self cls tok)

theorem classListRemove_idem (cls : List String) (tok : String) :
    classListRemove (classListRemove cls tok) tok = classListRemove cls tok := by
  simp [classListRemove, List.filter_filter]

theorem mem_classListToggle_iff (cls : List String) (tok c : String) :
    c ∈ classListToggle cls tok ↔
      (if tok ∈ cls then c ∈ cls ∧ c ≠ tok else c ∈ cls ∨ c = tok) := by
  unfold classListToggle
  rw [contains_eq_decide_mem]
  by_cases h : tok ∈ cls
  · simp [h, mem_classListRemove_iff]
  · simp [h, mem_classListAdd_iff]

theorem mem_classListToggle_twice (cls : List String) (tok : String) :
    tok ∈ classListToggle (classListToggle cls tok) tok ↔ tok ∈ cls := by
  by_cases h : tok ∈ cls
  · have h1 : tok ∉ classListToggle cls tok := by
      rw [mem_classListToggle_iff]
      simp [h]
    rw [mem_classListToggle_iff]
    simp [h, h1]
  · have h1 : tok ∈ classListToggle cls tok := by
      rw [mem_classListToggle_iff]
      simp [h]
    rw [mem_classListToggle_iff]
    simp [h, h1]

/-! ## C3: `tagNameStartsWith` -/

/-- C3: for every constructed `SelectedTag` and every string `s`,
`tagNameStartsWith s` returns `true` exactly when the case-folded stored
tag name starts with the case-folded `s`; in particular it returns `true`
on the empty string and on the full tag name.  (It is a pure, total
function of the instance: in the embedding it returns only a boolean and
no state, so it has no side effects.) -/
theorem tagNameStartsWith_spec (tagType tagName s : String) (allWorksTagged : Bool) :
    ((SelectedTag.construct tagType tagName allWorksTagged).tagNameStartsWith s = true ↔
      (jsToLower s).data <+: (jsToLower tagName).data)
    ∧ (SelectedTag.construct tagType tagName allWorksTagged).tagNameStartsWith "" = true
    ∧ (SelectedTag.construct tagType tagName allWorksTagged).tagNameStartsWith tagName = true := by
  refine ⟨?_, ?_, ?_⟩
  · simp [SelectedTag.tagNameStartsWith, SelectedTag.construct, jsStartsWith,
      List.isPrefixOf_iff_prefix]
  · simp [SelectedTag.tagNameStartsWith, SelectedTag.construct, jsStartsWith,
      jsToLower, List.isPrefixOf_iff_prefix]
  · simp [SelectedTag.tagNameStartsWith, SelectedTag.construct, jsStartsWith,
      List.isPrefixOf_iff_prefix]

/-! ## C6: component discovery in `vite.config.mjs` -/

/-- C6: at the directory listing `["App.vue.bak", "BulkSearch.vue"]` the
code selects `App.vue.bak` (its name merely *contains* `.vue`) and derives
the component name `App.bak`, while the documented rule — select exactly
the files whose names *end with* the `.vue` extension — selects only
`BulkSearch.vue`. -/
theorem getComponentNames_divergence :
    getComponentNames ["App.vue.bak", "BulkSearch.vue"] = ["App.bak", "BulkSearch"]
    ∧ getComponentNamesSpec ["App.vue.bak", "BulkSearch.vue"] = ["BulkSearch"]
    ∧ (".vue".data.isSuffixOf "App.vue.bak".data) = false := by
  refine ⟨by decide, by decide, by decide⟩

/-! ## C1: the status marker tracks `updateAllWorksTagged` -/

theorem status_toggle_eq (a b : Bool) :
    (if b then
        classListAdd (classListRemove ["selected-tag__status", statusModifier a]
          (statusModifier false)) (statusModifier true)
      else
        classListAdd (classListRemove ["selected-tag__status", statusModifier a]
          (statusModifier true)) (statusModifier false))
      = ["selected-tag__status", statusModifier b] := by
  cases a <;> cases b <;> decide

theorem updateAllWorksTagged_status (w : World) (e : Elem) (a b : Bool)
    (hsel : w.tag.selectedTag = some e)
    (hst : e.statusClasses = ["selected-tag__status", statusModifier a]) :
    ∃ e2, ((w.updateAllWorksTagged b).1).tag.selectedTag = some e2
      ∧ e2.statusClasses = ["selected-tag__status", statusModifier b]
      ∧ ((w.updateAllWorksTagged b).1).tag.allWorksTagged = b := by
  unfold World.updateAllWorksTagged
  simp only [hsel, hst]
  exact ⟨_, rfl, status_toggle_eq a b, trivial⟩

theorem applyUpdates_status (bs : List Bool) : ∀ (w : World) (a : Bool),
    w.tag.allWorksTagged = a →
    (∃ e, w.tag.selectedTag = some e
       ∧ e.statusClasses = ["selected-tag__status", statusModifier a]) →
    ∃ e2, (w.applyUpdates bs).tag.selectedTag = some e2
      ∧ e2.statusClasses = ["selected-tag__status", statusModifier (lastCallArg a bs)]
      ∧ (w.applyUpdates bs).tag.allWorksTagged = lastCallArg a bs := by
  induction bs with
  | nil =>
      intro w a ha h
      obtain ⟨e, hsel, hst⟩ := h
      exact ⟨e, hsel, hst, ha⟩
  | cons b rest ih =>
      intro w a _ h
      obtain ⟨e, hsel, hst⟩ := h
      obtain ⟨e2, hsel2, hst2, hall2⟩ := updateAllWorksTagged_status w e a b hsel hst
      exact ih ((w.updateAllWorksTagged b).1) b hall2 ⟨e2, hsel2, hst2⟩

/-- C1: after `renderAndAttach`, for every finite sequence of
`updateAllWorksTagged` calls the status span's class list is exactly the
base class plus the modifier matching the last call's boolean argument
(the constructor's `allWorksTagged` when no call was made: `lastCallArg`
returns the initial value on `[]` and the final element on `pre ++ [v]`),
and exactly one of the two mutually exclusive status markers is present —
and since the sequence is universally quantified, this holds at every
point after rendering. -/
theorem status_matches_last_update (tagType tagName : String)
    (allWorksTagged : Bool) (others : List Nat) (bs : List Bool) :
    (∃ e, (((initWorld tagType tagName allWorksTagged others).renderAndAttach).applyUpdates
            bs).tag.selectedTag = some e
      ∧ e.statusClasses = ["selected-tag__status", statusModifier (lastCallArg allWorksTagged bs)]
      ∧ exactlyOneStatus e.statusClasses
      ∧ (((initWorld tagType tagName allWorksTagged others).renderAndAttach).applyUpdates
            bs).tag.allWorksTagged = lastCallArg allWorksTagged bs)
    ∧ lastCallArg allWorksTagged [] = allWorksTagged
    ∧ (∀ (pre : List Bool) (v : Bool), lastCallArg allWorksTagged (pre ++ [v]) = v) := by
  refine ⟨?_, rfl, ?_⟩
  · obtain ⟨e2, hsel2, hst2, hall2⟩ :=
      applyUpdates_status bs ((initWorld tagType tagName allWorksTagged others).renderAndAttach)
        allWorksTagged rfl ⟨_, rfl, rfl⟩
    refine ⟨e2, hsel2, hst2, ?_, hall2⟩
    rw [hst2]
    unfold exactlyOneStatus
    cases lastCallArg allWorksTagged bs <;> decide
  · intro pre v
    simp [lastCallArg, List.foldl_append]

/-! ## C2: `renderAndAttach` builds and prepends the node -/

/-- C2: for a recognised `tagType`, `renderAndAttach` builds exactly one
node for the instance — root class `selected-tag`, a status marker
matching `allWorksTagged`, the category marker selected by `tagType`, and
a name span showing `tagName` verbatim — and prepends it to the container,
in which no node for the instance exists beforehand. -/
theorem renderAndAttach_builds_node (tagType tagName : String)
    (allWorksTagged : Bool) (others : List Nat) (sfx : String)
    (hty : suffixLookup tagType = some sfx) :
    Child.ours ∉ (initWorld tagType tagName allWorksTagged others).containerChildren
    ∧ ((initWorld tagType tagName allWorksTagged others).renderAndAttach).containerChildren.count
        Child.ours = 1
    ∧ ((initWorld tagType tagName allWorksTagged others).renderAndAttach).containerChildren.head?
        = some Child.ours
    ∧ ∃ e, ((initWorld tagType tagName allWorksTagged others).renderAndAttach).tag.selectedTag
            = some e
        ∧ e.classes = ["selected-tag"]
        ∧ e.statusClasses = ["selected-tag__status", statusModifier allWorksTagged]
        ∧ e.typeClasses = ["selected-tag__type", "selected-tag__type" ++ sfx]
        ∧ e.nameText = tagName := by
  have hmem : Child.ours ∉ (initWorld tagType tagName allWorksTagged others).containerChildren := by
    simp [initWorld]
  refine ⟨hmem, ?_, rfl, ⟨_, rfl, rfl, rfl, ?_, rfl⟩⟩
  · show List.count Child.ours (Child.ours :: (initWorld tagType tagName allWorksTagged
        others).containerChildren) = 1
    rw [List.count_cons_self, List.count_eq_zero_of_not_mem hmem]
  · show ["selected-tag__type", "selected-tag__type" ++ interpOpt (suffixLookup tagType)]
        = ["selected-tag__type", "selected-tag__type" ++ sfx]
    rw [hty]
    rfl

theorem renderAndAttach_builds_node_witness :
    suffixLookup "subjects" = some "--subject"
    ∧ (Child.ours ∉ (initWorld "subjects" "Fantasy" false [7]).containerChildren
       ∧ ((initWorld "subjects" "Fantasy" false [7]).renderAndAttach).containerChildren.count
           Child.ours = 1
       ∧ ((initWorld "subjects" "Fantasy" false [7]).renderAndAttach).containerChildren.head?
           = some Child.ours
       ∧ ∃ e, ((initWorld "subjects" "Fantasy" false [7]).renderAndAttach).tag.selectedTag
               = some e
           ∧ e.classes = ["selected-tag"]
           ∧ e.statusClasses = ["selected-tag__status", statusModifier false]
           ∧ e.typeClasses = ["selected-tag__type", "selected-tag__type" ++ "--subject"]
           ∧ e.nameText = "Fantasy") :=
  ⟨by decide, renderAndAttach_builds_node "subjects" "Fantasy" false [7] "--subject" (by decide)⟩

/-! ## C4: the `selectedTag` handle across the lifecycle -/

/-- C4 counterexample: construct, `renderAndAttach`, then `remove` — the
claim says the handle is then unset, but `remove()` only detaches the
node and never clears `this.selectedTag`, so the handle is still set. -/
theorem remove_leaves_handle_set :
    (((initWorld "subjects" "Fantasy" false []).renderAndAttach).remove).1.tag.selectedTag
      ≠ none := by
  decide

theorem runOp_isSome (w : World) (o : Op) :
    ((w.runOp o).tag.selectedTag.isSome = true) ↔
      (w.tag.selectedTag.isSome = true ∨ o = Op.render) := by
  cases o with
  | render => simp [World.runOp, World.renderAndAttach]
  | removeIt =>
      cases h : w.tag.selectedTag <;> simp [World.runOp, World.remove, h]
  | update b =>
      cases h : w.tag.selectedTag <;> simp [World.runOp, World.updateAllWorksTagged, h]
  | hide =>
      cases h : w.tag.selectedTag <;> simp [World.runOp, World.hide, h]
  | unhide =>
      cases h : w.tag.selectedTag <;> simp [World.runOp, World.showTag, h]
  | toggle =>
      cases h : w.tag.selectedTag <;> simp [World.runOp, World.toggleVisibility, h]

theorem run_isSome (ops : List Op) : ∀ w : World,
    ((w.run ops).tag.selectedTag.isSome = true) ↔
      (w.tag.selectedTag.isSome = true ∨ Op.render ∈ ops) := by
  induction ops with
  | nil => intro w; simp [World.run]
  | cons o rest ih =>
      intro w
      have h1 : w.run (o :: rest) = (w.runOp o).run rest := rfl
      rw [h1, ih, runOp_isSome]
      simp [List.mem_cons]
      tauto

/-- C4 (amended): over every operation sequence on a fresh instance, the
`selectedTag` handle is set exactly when `renderAndAttach` has been called
at some point — `remove()` detaches the node from the container but does
not unset the handle. -/
theorem mountedNode_set_iff_rendered (tagType tagName : String)
    (allWorksTagged : Bool) (others : List Nat) (ops : List Op) :
    (((initWorld tagType tagName allWorksTagged others).run ops).tag.selectedTag.isSome = true)
      ↔ Op.render ∈ ops := by
  rw [run_isSome]
  simp [initWorld, SelectedTag.construct]

/-! ## C5: unrecognised `tagType` -/

/-- C5 counterexample: with the unrecognised tagType `"authors"`,
`renderAndAttach` does not omit the category marker — the type span
carries the malformed second class `selected-tag__typeundefined` (the
`undefined` lookup interpolated into the template). -/
theorem unrecognized_tagType_counterexample :
    (((initWorld "authors" "Fantasy" false []).renderAndAttach).tag.selectedTag.map
        Elem.typeClasses)
      = some ["selected-tag__type", "selected-tag__typeundefined"]
    ∧ (((initWorld "authors" "Fantasy" false []).renderAndAttach).tag.selectedTag.map
        Elem.typeClasses)
      ≠ some ["selected-tag__type"] := by
  refine ⟨by decide, by decide⟩

/-- C5 (amended): for every `tagType` outside the four recognised
categories, `renderAndAttach` renders the type span with the malformed
class `selected-tag__typeundefined` (the failed suffix lookup interpolates
as the text `undefined`) rather than omitting the category marker. -/
theorem unrecognized_tagType_renders_undefined (tagType tagName : String)
    (allWorksTagged : Bool) (others : List Nat)
    (h : suffixLookup tagType = none) :
    ∃ e, ((initWorld tagType tagName allWorksTagged others).renderAndAttach).tag.selectedTag
          = some e
      ∧ e.typeClasses = ["selected-tag__type", "selected-tag__typeundefined"] := by
  refine ⟨_, rfl, ?_⟩
  show ["selected-tag__type", "selected-tag__type" ++ interpOpt (suffixLookup tagType)]
      = ["selected-tag__type", "selected-tag__typeundefined"]
  rw [h]
  rfl

theorem unrecognized_tagType_renders_undefined_witness :
    suffixLookup "authors" = none
    ∧ ∃ e, ((initWorld "authors" "Fantasy" false []).renderAndAttach).tag.selectedTag = some e
        ∧ e.typeClasses = ["selected-tag__type", "selected-tag__typeundefined"] :=
  ⟨by decide, unrecognized_tagType_renders_undefined "authors" "Fantasy" false [] (by decide)⟩

/-! ## C7: `isVisible` mirrors the `hidden` class -/

theorem contains_classListRemove_self (cls : List String) (tok : String) :
    (classListRemove cls tok).contains tok = false := by
  rw [contains_eq_decide_mem]
  simp [mem_classListRemove_iff]

theorem contains_classListToggle_self (cls : List String) (tok : String) :
    (classListToggle cls tok).contains tok = !(cls.contains tok) := by
  unfold classListToggle
  by_cases h : cls.contains tok = true
  · rw [if_pos h, contains_classListRemove_self, h]
    rfl
  · have h2 : cls.contains tok = false := by
      simpa using h
    rw [if_neg h, contains_classListAdd_self, h2]
    rfl

/-- The visibility invariant: whenever the mounted node is set,
`isVisible` equals the absence of the `hidden` class on it. -/
def visOk (w : World) : Prop :=
  ∀ e, w.tag.selectedTag = some e → w.tag.isVisible = !(e.classes.contains "hidden")

theorem visOk_renderAndAttach (w : World) (h : w.tag.isVisible = true) :
    visOk w.renderAndAttach := by
  intro e he
  unfold World.renderAndAttach at he
  simp only [Option.some.injEq] at he
  rw [← he]
  simpa using h

theorem runOp_preserves_visOk (w : World) (o : Op) (ho : o ≠ Op.render)
    (h : visOk w) : visOk (w.runOp o) := by
  cases o with
  | render => exact absurd rfl ho
  | removeIt =>
      have hw : (w.runOp Op.removeIt).tag = w.tag := by
        cases hsel : w.tag.selectedTag <;> simp [World.runOp, World.remove, hsel]
      intro e he
      rw [hw] at he ⊢
      exact h e he
  | update b =>
      cases hsel : w.tag.selectedTag with
      | none =>
          have hw : (w.runOp (Op.update b)).tag.selectedTag = none := by
            simp [World.runOp, World.updateAllWorksTagged, hsel]
          intro e he
          rw [hw] at he
          exact absurd he (by simp)
      | some e0 =>
          intro e he
          simp only [World.runOp, World.updateAllWorksTagged, hsel,
            Option.some.injEq] at he
          subst he
          simp only [World.runOp, World.updateAllWorksTagged, hsel]
          exact h e0 hsel
  | hide =>
      cases hsel : w.tag.selectedTag with
      | none => simpa [World.runOp, World.hide, hsel] using h
      | some e0 =>
          intro e he
          simp only [World.runOp, World.hide, hsel, Option.some.injEq] at he
          subst he
          simp only [World.runOp, World.hide, hsel]
          show false = !((classListAdd e0.classes "hidden").contains "hidden")
          rw [contains_classListAdd_self]
          rfl
  | unhide =>
      cases hsel : w.tag.selectedTag with
      | none => simpa [World.runOp, World.showTag, hsel] using h
      | some e0 =>
          intro e he
          simp only [World.runOp, World.showTag, hsel, Option.some.injEq] at he
          subst he
          simp only [World.runOp, World.showTag, hsel]
          show true = !((classListRemove e0.classes "hidden").contains "hidden")
          rw [contains_classListRemove_self]
          rfl
  | toggle =>
      cases hsel : w.tag.selectedTag with
      | none => simpa [World.runOp, World.toggleVisibility, hsel] using h
      | some e0 =>
          intro e he
          simp only [World.runOp, World.toggleVisibility, hsel, Option.some.injEq] at he
          subst he
          simp only [World.runOp, World.toggleVisibility, hsel]
          show (!w.tag.isVisible)
              = !((classListToggle e0.classes "hidden").contains "hidden")
          rw [contains_classListToggle_self, h e0 hsel]

theorem run_preserves_visOk (ops : List Op) : ∀ w : World, Op.render ∉ ops →
    visOk w → visOk (w.run ops) := by
  induction ops with
  | nil => intro w _ h; exact h
  | cons o rest ih =>
      intro w hmem h
      have ho : o ≠ Op.render := by
        intro hh
        exact hmem (hh ▸ List.mem_cons_self o rest)
      have hrest : Op.render ∉ rest := fun hr => hmem (List.mem_cons_of_mem o hr)
      exact ih (w.runOp o) hrest (runOp_preserves_visOk w o ho h)

/-- C7: after `renderAndAttach` the visibility invariant `visOk` — whenever
the mounted node is set, `isVisible` equals the absence of the `hidden`
marker — holds after every sequence of the mutation methods; each single
non-render operation preserves it; and `toggleVisibility` applied twice on
a rendered instance restores both `isVisible` and the presence of the
`hidden` marker. -/
theorem visibility_invariant (tagType tagName : String) (allWorksTagged : Bool)
    (others : List Nat) (ops : List Op) (w : World) (e : Elem) (o : Op)
    (hops : Op.render ∉ ops) (ho : o ≠ Op.render) (hvis : visOk w)
    (hsel : w.tag.selectedTag = some e) :
    visOk (((initWorld tagType tagName allWorksTagged others).renderAndAttach).run ops)
    ∧ visOk (w.runOp o)
    ∧ (((w.toggleVisibility).1.toggleVisibility).1.tag.isVisible = w.tag.isVisible
        ∧ ∃ e2, ((w.toggleVisibility).1.toggleVisibility).1.tag.selectedTag = some e2
            ∧ e2.classes.contains "hidden" = e.classes.contains "hidden") := by
  refine ⟨?_, runOp_preserves_visOk w o ho hvis, ?_, ?_⟩
  · exact run_preserves_visOk ops _ hops (visOk_renderAndAttach _ rfl)
  · unfold World.toggleVisibility
    simp only [hsel]
    simp [Bool.not_not]
  · unfold World.toggleVisibility
    simp only [hsel]
    refine ⟨_, rfl, ?_⟩
    show (classListToggle (classListToggle e.classes "hidden") "hidden").contains "hidden"
        = e.classes.contains "hidden"
    rw [contains_classListToggle_self, contains_classListToggle_self, Bool.not_not]

theorem visibility_invariant_witness :
    (Op.render ∉ ([Op.hide, Op.toggle] : List Op))
    ∧ (visOk (((initWorld "subjects" "Fantasy" false []).renderAndAttach).run
        [Op.hide, Op.toggle])
      ∧ visOk (((initWorld "subjects" "Fantasy" false []).renderAndAttach).runOp Op.hide)
      ∧ ((((initWorld "subjects" "Fantasy" false []).renderAndAttach).toggleVisibility).1.toggleVisibility).1.tag.isVisible
          = ((initWorld "subjects" "Fantasy" false []).renderAndAttach).tag.isVisible
      ∧ ∃ e2, ((((initWorld "subjects" "Fantasy" false []).renderAndAttach).toggleVisibility).1.toggleVisibility).1.tag.selectedTag
            = some e2
          ∧ e2.classes.contains "hidden"
            = (Elem.mk ["selected-tag"]
                ["selected-tag__status", statusModifier false]
                ["selected-tag__type", "selected-tag__type" ++ "--subject"]
                "Fantasy").classes.contains "hidden") :=
  ⟨by decide,
   visibility_invariant "subjects" "Fantasy" false [] [Op.hide, Op.toggle]
     ((initWorld "subjects" "Fantasy" false []).renderAndAttach)
     (Elem.mk ["selected-tag"]
       ["selected-tag__status", statusModifier false]
       ["selected-tag__type", "selected-tag__type" ++ "--subject"]
       "Fantasy")
     Op.hide (by decide) (by decide)
     (run_preserves_visOk [] _ (by decide) (visOk_renderAndAttach _ rfl))
     rfl⟩

/-! ## C8: `hide` / `show` algebra -/

/-- C8: on a rendered instance, `hide` and `show` are idempotent — a second
call changes neither the instance nor the node — and `hide` followed by
`show` yields `isVisible = true` with the `hidden` marker absent, from any
starting visibility state. -/
theorem hide_show_idempotent (w : World) (e : Elem)
    (hsel : w.tag.selectedTag = some e) :
    (w.runOp Op.hide).runOp Op.hide = w.runOp Op.hide
    ∧ (w.runOp Op.unhide).runOp Op.unhide = w.runOp Op.unhide
    ∧ ((w.runOp Op.hide).runOp Op.unhide).tag.isVisible = true
    ∧ ∃ e2, ((w.runOp Op.hide).runOp Op.unhide).tag.selectedTag = some e2
        ∧ e2.classes.contains "hidden" = false := by
  refine ⟨?_, ?_, ?_, ?_⟩
  · simp [World.runOp, World.hide, hsel, classListAdd_idem]
  · simp [World.runOp, World.showTag, hsel, classListRemove_idem]
  · simp [World.runOp, World.hide, World.showTag, hsel]
  · simp only [World.runOp, World.hide, World.showTag, hsel]
    exact ⟨_, rfl, contains_classListRemove_self _ _⟩

theorem hide_show_idempotent_witness :
    ((initWorld "subjects" "Fantasy" false []).renderAndAttach.runOp Op.hide).runOp Op.hide
      = (initWorld "subjects" "Fantasy" false []).renderAndAttach.runOp Op.hide
    ∧ ((initWorld "subjects" "Fantasy" false []).renderAndAttach.runOp Op.unhide).runOp Op.unhide
      = (initWorld "subjects" "Fantasy" false []).renderAndAttach.runOp Op.unhide
    ∧ (((initWorld "subjects" "Fantasy" false []).renderAndAttach.runOp Op.hide).runOp
        Op.unhide).tag.isVisible = true
    ∧ ∃ e2, (((initWorld "subjects" "Fantasy" false []).renderAndAttach.runOp Op.hide).runOp
          Op.unhide).tag.selectedTag = some e2
        ∧ e2.classes.contains "hidden" = false :=
  hide_show_idempotent ((initWorld "subjects" "Fantasy" false []).renderAndAttach) _ rfl

/-! ## C9: failures on an unrendered instance -/

/-- C9: on an instance whose mounted-node handle is unset,
`updateAllWorksTagged(v)` throws a `TypeError` but only after the
`allWorksTagged` field has already been set to `v` (the failure is not
atomic), whereas `hide()` and `show()` throw before any state change. -/
theorem unrendered_mutation_failures (w : World) (v : Bool)
    (h : w.tag.selectedTag = none) :
    (w.updateAllWorksTagged v).2 = some JsError.typeError
    ∧ (w.updateAllWorksTagged v).1 = { w with tag := { w.tag with allWorksTagged := v } }
    ∧ w.hide = (w, some JsError.typeError)
    ∧ w.showTag = (w, some JsError.typeError) := by
  unfold World.updateAllWorksTagged World.hide World.showTag
  simp only [h]
  exact ⟨trivial, trivial, trivial, trivial⟩

theorem unrendered_mutation_failures_witness :
    ((initWorld "subjects" "Fantasy" false []).updateAllWorksTagged true).2
      = some JsError.typeError
    ∧ ((initWorld "subjects" "Fantasy" false []).updateAllWorksTagged true).1
      = { initWorld "subjects" "Fantasy" false [] with
          tag := { (initWorld "subjects" "Fantasy" false []).tag with allWorksTagged := true } }
    ∧ (initWorld "subjects" "Fantasy" false []).hide
      = (initWorld "subjects" "Fantasy" false [], some JsError.typeError)
    ∧ (initWorld "subjects" "Fantasy" false []).showTag
      = (initWorld "subjects" "Fantasy" false [], some JsError.typeError) :=
  unrendered_mutation_failures (initWorld "subjects" "Fantasy" false []) true rfl

/-! ## C10: a second `remove` is a no-op -/

/-- C10: on a rendered instance whose node occurs at most once in the
container (as in the DOM), `remove()` succeeds, and a second `remove()`
also succeeds without an error and leaves both the instance and the
container unchanged. -/
theorem second_remove_noop (w : World) (e : Elem)
    (hsel : w.tag.selectedTag = some e)
    (hcount : w.containerChildren.count Child.ours ≤ 1) :
    (w.remove).2 = none
    ∧ ((w.remove).1).remove = ((w.remove).1, none) := by
  unfold World.remove
  simp only [hsel]
  refine ⟨trivial, ?_⟩
  have hzero : (w.containerChildren.erase Child.ours).count Child.ours = 0 := by
    rw [List.count_erase_self]
    omega
  have hnot : Child.ours ∉ w.containerChildren.erase Child.ours :=
    List.not_mem_of_count_eq_zero hzero
  simp [List.erase_of_not_mem hnot]

theorem second_remove_noop_witness :
    (((initWorld "subjects" "Fantasy" false [3]).renderAndAttach).remove).2 = none
    ∧ ((((initWorld "subjects" "Fantasy" false [3]).renderAndAttach).remove).1).remove
      = ((((initWorld "subjects" "Fantasy" false [3]).renderAndAttach).remove).1, none) :=
  second_remove_noop ((initWorld "subjects" "Fantasy" false [3]).renderAndAttach) _ rfl
    (by decide)

end BulkTagger
